import Mathlib

/-!
Shallow embedding of the provider/client abstraction core of the
llmabstraction repository, together with theorems checking the
natural-language specification against it.

Conventions of the embedding:
- a Python exception raised with message `m` is `Except.error m`;
- a streaming generator is a pair `(chunks, exc)`: the fragments it yields
  in order, and `some m` when it raises an exception with message `m`
  after producing those fragments (`none` for normal exhaustion);
- mutable singleton state is passed explicitly; methods return the result
  paired with the updated state;
- wall-clock timestamps and opaque metadata dictionaries are omitted from
  `LLMResponse`/`Interaction` (no claim mentions them); the `usage`
  dictionary is kept as an association list;
- the keyword-argument machinery (default-parameter merging) is outside
  the modelled fragment: no claim depends on generation parameters.
-/

/-- Standardized response from LLM interactions (llm_facade.LLMResponse),
without the timestamp/metadata fields. -/
structure LLMResponse where
  content : String
  model : String
  provider : String
  usage : Option (List (String × Nat))
  error : Option String
deriving DecidableEq, Repr

/-- One chat message dictionary with a role and a content entry. -/
structure ChatMessage where
  role : String
  content : String
deriving DecidableEq, Repr

/-- One recorded prompt/response interaction, as built by
`LLMInteractionHistory.add_interaction` (timestamp omitted). -/
structure Interaction where
  prompt : String
  response : String
  model : String
  provider : String
  usage : Option (List (String × Nat))
deriving DecidableEq, Repr

/-- The dictionary appended to the history deque by `add_interaction`. -/
def interactionOf (prompt : String) (response : LLMResponse) : Interaction :=
  { prompt := prompt
    response := response.content
    model := response.model
    provider := response.provider
    usage := response.usage }

/-- State of `LLMInteractionHistory`: the capacity `max_history` and the
contents of the `deque(maxlen=max_history)`, oldest first. -/
structure LLMInteractionHistory where
  max_history : Nat
  hist : List Interaction
deriving DecidableEq, Repr

/-- Fresh history, as built by `LLMInteractionHistory.__init__`. -/
def LLMInteractionHistory.init (max_history : Nat) : LLMInteractionHistory :=
  ⟨max_history, []⟩

/-- Appending to a `collections.deque` with `maxlen`: the new element goes
to the right and elements fall off the left once the length would exceed
`maxlen` (for `maxlen = 0` the deque stays empty). -/
def dequeAppendMax (maxlen : Nat) (l : List Interaction) (x : Interaction) : List Interaction :=
  let l2 := l ++ [x]
  if maxlen < l2.length then l2.drop (l2.length - maxlen) else l2

/-- `LLMInteractionHistory.add_interaction`. -/
def LLMInteractionHistory.add_interaction (h : LLMInteractionHistory)
    (prompt : String) (response : LLMResponse) : LLMInteractionHistory :=
  { h with hist := dequeAppendMax h.max_history h.hist (interactionOf prompt response) }

/-- `LLMInteractionHistory.get_history(n)`. For `n = None` the whole list is
returned; otherwise the Python code returns `list(self._history)[-n:]`.
CPython slicing makes `[-0:]` the same as `[0:]` (the whole list), while for
`n > 0` the slice is the last `n` elements (clamped to the available
length); `n` is modelled over the naturals, the call sites' domain. -/
def LLMInteractionHistory.get_history (h : LLMInteractionHistory)
    (n : Option Nat) : List Interaction :=
  match n with
  | none => h.hist
  | some k => if k = 0 then h.hist else h.hist.drop (h.hist.length - k)

/-- Loop body of `LLMInteractionHistory.get_as_messages`: each interaction
contributes a user message holding its prompt followed by an assistant
message holding its response content. -/
def messagesOfInteractions : List Interaction → List ChatMessage
  | [] => []
  | i :: rest =>
      { role := "user", content := i.prompt } ::
      { role := "assistant", content := i.response } ::
      messagesOfInteractions rest

/-- `LLMInteractionHistory.get_as_messages(n)`. -/
def LLMInteractionHistory.get_as_messages (h : LLMInteractionHistory)
    (n : Option Nat) : List ChatMessage :=
  messagesOfInteractions (h.get_history n)

/-- `LLMInteractionHistory.size`. -/
def LLMInteractionHistory.size (h : LLMInteractionHistory) : Nat :=
  h.hist.length

/-- `LLMInteractionHistory.is_empty`. -/
def LLMInteractionHistory.is_empty (h : LLMInteractionHistory) : Bool :=
  h.hist.length == 0

/-- Behaviour of one concrete `LLMFacade` implementation, seen through the
abstract contract: the four operations plus the bound model/provider names.
`Except.error m` models the vendor code raising an exception; a stream is
modelled as its yielded fragments plus an optional trailing exception. -/
structure LLMFacade where
  model_name : String
  provider_name : String
  generateF : String → Except String LLMResponse
  chatF : List ChatMessage → Except String LLMResponse
  generate_streamF : String → List String × Option String
  chat_streamF : List ChatMessage → List String × Option String

/-- State of an `LLMClient`: the wrapped facade and the owned history. -/
structure LLMClient where
  facade : LLMFacade
  history : LLMInteractionHistory

/-- The error `LLMResponse` the client builds in its `except` blocks. -/
def errorResponse (f : LLMFacade) (e : String) : LLMResponse :=
  { content := "", model := f.model_name, provider := f.provider_name
    usage := none, error := some e }

/-- `LLMClient.generate(prompt, use_history, save_to_history)`. Returns the
response and the client with its (possibly) updated history; the catch-all
`except` turns a raised exception into an error response. -/
def LLMClient.generate (c : LLMClient) (prompt : String)
    (use_history save_to_history : Bool) : LLMResponse × LLMClient :=
  let attempt :=
    if use_history ∧ ¬ c.history.is_empty then
      c.facade.chatF (c.history.get_as_messages none ++ [{ role := "user", content := prompt }])
    else
      c.facade.generateF prompt
  match attempt with
  | .ok response =>
      if save_to_history ∧ response.error = none then
        (response, { c with history := c.history.add_interaction prompt response })
      else
        (response, c)
  | .error e => (errorResponse c.facade e, c)

/-- `LLMClient.generate_stream(prompt, use_history, save_to_history)`.
Returns the fragments the caller receives and the final client state: on
normal exhaustion of the facade stream the joined fragments are recorded
into history when `save_to_history`; when the facade raises, the `except`
block yields one extra terminal fragment and nothing is recorded. -/
def LLMClient.generate_stream (c : LLMClient) (prompt : String)
    (use_history save_to_history : Bool) : List String × LLMClient :=
  let stream :=
    if use_history ∧ ¬ c.history.is_empty then
      c.facade.chat_streamF (c.history.get_as_messages none ++ [{ role := "user", content := prompt }])
    else
      c.facade.generate_streamF prompt
  match stream with
  | (chunks, none) =>
      if save_to_history then
        let response : LLMResponse :=
          { content := String.join chunks, model := c.facade.model_name
            provider := c.facade.provider_name, usage := none, error := none }
        (chunks, { c with history := c.history.add_interaction prompt response })
      else
        (chunks, c)
  | (chunks, some e) => (chunks ++ ["Error: " ++ e], c)

/-- `LLMClient.chat(messages, save_to_history)`: pass through to the
facade, and on success record the most recent user-role message (scanning
from the end) paired with the response — but only when that content is a
non-empty (truthy) string. -/
def LLMClient.chat (c : LLMClient) (messages : List ChatMessage)
    (save_to_history : Bool) : LLMResponse × LLMClient :=
  match c.facade.chatF messages with
  | .ok response =>
      if save_to_history ∧ response.error = none ∧ messages ≠ [] then
        let user_msg :=
          ((messages.reverse.find? (fun m => m.role == "user")).map ChatMessage.content).getD ""
        if user_msg ≠ "" then
          (response, { c with history := c.history.add_interaction user_msg response })
        else
          (response, c)
      else
        (response, c)
  | .error e => (errorResponse c.facade e, c)

/-- `LLMClient.multi_shot_generate(prompt, n_shots)`: render the last
`n_shots` history entries as messages, append the prompt as a user message
and delegate to `chat` (whose `save_to_history` defaults to true). -/
def LLMClient.multi_shot_generate (c : LLMClient) (prompt : String)
    (n_shots : Nat) : LLMResponse × LLMClient :=
  let messages := c.history.get_as_messages (some n_shots) ++ [{ role := "user", content := prompt }]
  c.chat messages true

/-- Provider-specific configuration dictionary (contents opaque to the
core; modelled as an association list). -/
def ProviderConfig := List (String × String)

/-- An `LLMProvider` instance: identity, credential, model catalog keys and
the vendor `create_facade` behaviour (which may raise). -/
structure LLMProvider where
  provider_name : String
  api_key : Option String
  models : List String
  create_facadeF : String → Except String LLMFacade

/-- `LLMProvider.get_available_models` (catalog keys). -/
def LLMProvider.get_available_models (p : LLMProvider) : List String :=
  p.models

/-- `LLMProvider.supports_model`: membership in the catalog keys. -/
def LLMProvider.supports_model (p : LLMProvider) (model_name : String) : Bool :=
  p.models.contains model_name

/-- A registered provider class: calling it (the Python constructor
`provider_class(provider_name, api_key, config)`) yields a provider
instance or raises. -/
structure LLMProviderClass where
  construct : String → Option String → Option ProviderConfig → Except String LLMProvider

/-- State of the `LLMProviderFactory` singleton: the name-to-class
registry and the name-to-instance cache (both keyed by lowercased names),
plus the process environment used for API-key lookup. The ghost field
`constructions` counts how many provider instances have been constructed;
it is incremented exactly when a provider class is instantiated and has no
influence on behaviour. -/
structure LLMProviderFactoryState where
  registry : List (String × LLMProviderClass)
  instances : List (String × LLMProvider)
  env : List (String × String)
  constructions : Nat

/-- Lowercasing of a name, as Python `str.lower()` acts on the ASCII
provider names in play (structurally recursive so that concrete states
evaluate). -/
def strToLower (s : String) : String :=
  ⟨s.data.map Char.toLower⟩

/-- Uppercasing of a name, as Python `str.upper()` acts on the ASCII
provider names in play. -/
def strToUpper (s : String) : String :=
  ⟨s.data.map Char.toUpper⟩

/-- Credential resolution inside `get_provider`: the explicit `api_key`
argument wins, else the environment entry `NAME_UPPERCASED_API_KEY`. -/
def resolveApiKey (api_key : Option String) (env : List (String × String))
    (provider_name : String) : Option String :=
  match api_key with
  | some k => some k
  | none => env.lookup (strToUpper provider_name ++ "_API_KEY")

/-- `LLMProviderFactory.get_provider(provider_name, api_key, config,
use_cache)`: cache hit returns the cached instance unchanged; otherwise the
registered class is looked up (raising an unregistered-provider error when
absent), the credential is resolved (explicit key wins, else the
environment entry `NAME_API_KEY`), the class is instantiated, and the
instance is cached when `use_cache`. -/
def get_provider (st : LLMProviderFactoryState) (provider_name : String)
    (api_key : Option String) (config : Option ProviderConfig)
    (use_cache : Bool) : Except String LLMProvider × LLMProviderFactoryState :=
  let provider_key := strToLower provider_name
  match (if use_cache then st.instances.lookup provider_key else none) with
  | some p => (.ok p, st)
  | none =>
    match st.registry.lookup provider_key with
    | none =>
        (.error ("Provider '" ++ provider_name ++ "' not registered. Available providers: "
          ++ String.intercalate ", " (st.registry.map Prod.fst)), st)
    | some cls =>
      match cls.construct provider_name (resolveApiKey api_key st.env provider_name) config with
      | .error e => (.error e, st)
      | .ok p =>
        let st1 := { st with constructions := st.constructions + 1 }
        let st2 :=
          if use_cache then { st1 with instances := (provider_key, p) :: st1.instances }
          else st1
        (.ok p, st2)

/-- Configuration of the client factory as far as the core reads it: the
`fallback_to_mock` flag (absent keys default to false). -/
structure FallbackConfig where
  fallback_to_mock : Bool
deriving DecidableEq, Repr

/-- State of the `LLMClientFactory` singleton: loaded defaults, loaded
configuration (none before `load_config`), and the owned provider
factory. -/
structure LLMClientFactoryState where
  default_provider : Option String
  default_model : Option String
  config : Option FallbackConfig
  pf : LLMProviderFactoryState

/-- Truthiness of `self._config and self._config.get('fallback_to_mock',
False)`. -/
def fallbackEnabled (st : LLMClientFactoryState) : Bool :=
  match st.config with
  | some c => c.fallback_to_mock
  | none => false

/-- Name resolution at the top of `create_client`: the explicit argument
when present, else the configured default. -/
def resolveName (explicit fallback : Option String) : Option String :=
  match explicit with
  | some x => some x
  | none => fallback

/-- The `try` block of `LLMClientFactory.create_client` once both names
are resolved: obtain the provider through the registry/cache, validate
model support, build the facade and wrap it in a fresh client. Returns the
outcome together with the factory state (cache mutations persist even when
a later step fails). -/
def create_client_attempt (st : LLMClientFactoryState)
    (provider_name model_name : String) (api_key : Option String)
    (history_size : Nat) (provider_config : Option ProviderConfig) :
    Except String LLMClient × LLMClientFactoryState :=
  match get_provider st.pf provider_name api_key provider_config true with
  | (.error e, pf2) => (.error e, { st with pf := pf2 })
  | (.ok provider, pf2) =>
    let st2 := { st with pf := pf2 }
    if provider.supports_model model_name then
      match provider.create_facadeF model_name with
      | .error e => (.error e, st2)
      | .ok facade =>
          (.ok { facade := facade, history := LLMInteractionHistory.init history_size }, st2)
    else
      (.error ("Model '" ++ model_name ++ "' not supported by provider '" ++ provider_name
        ++ "'. Available models: " ++ String.intercalate ", " provider.models), st2)

/-- `LLMClientFactory.create_client`, with an explicit fuel bounding the
recursion of the fallback-to-mock branch (the missing-name errors are
raised before the `try` block and therefore never reach the fallback
check; the fallback branch re-enters `create_client` with provider
`mock`, model `mock-model`, no API key and no provider config). -/
def create_client_fuel :
    Nat → LLMClientFactoryState → Option String → Option String → Option String →
    Nat → Option ProviderConfig → Except String LLMClient × LLMClientFactoryState
  | 0, st, _, _, _, _, _ => (.error "fallback recursion exhausted", st)
  | fuel + 1, st, provider_opt, model_opt, api_key, history_size, provider_config =>
    match resolveName provider_opt st.default_provider with
    | none => (.error "No provider specified and no default configured", st)
    | some provider_name =>
      match resolveName model_opt st.default_model with
      | none => (.error "No model specified and no default configured", st)
      | some model_name =>
        match create_client_attempt st provider_name model_name api_key history_size provider_config with
        | (.ok client, st2) => (.ok client, st2)
        | (.error e, st2) =>
          if fallbackEnabled st2 ∧ provider_name ≠ "mock" then
            create_client_fuel fuel st2 (some "mock") (some "mock-model") none history_size none
          else
            (.error e, st2)

/-- `LLMClientFactory.create_client`. Fuel 2 is exact: the recursion is at
most one level deep (see the fallback-once theorem below). -/
def create_client (st : LLMClientFactoryState)
    (provider_opt model_opt api_key : Option String) (history_size : Nat)
    (provider_config : Option ProviderConfig) :
    Except String LLMClient × LLMClientFactoryState :=
  create_client_fuel 2 st provider_opt model_opt api_key history_size provider_config

/-! Helper lemmas about the bounded deque. -/

/-- The last `N` elements of a list (the whole list when it is shorter). -/
def lastN (N : Nat) (l : List Interaction) : List Interaction :=
  l.drop (l.length - N)

theorem lastN_of_le {N : Nat} {l : List Interaction} (h : l.length ≤ N) :
    lastN N l = l := by
  unfold lastN
  have hz : l.length - N = 0 := by omega
  rw [hz, List.drop_zero]

theorem lastN_length_le (N : Nat) (l : List Interaction) :
    (lastN N l).length ≤ N := by
  unfold lastN
  rw [List.length_drop]
  omega

theorem dequeAppendMax_eq (N : Nat) (l : List Interaction) (x : Interaction) :
    dequeAppendMax N l x = lastN N (l ++ [x]) := by
  unfold dequeAppendMax lastN
  simp only []
  split
  · rfl
  · next h =>
      have hz : (l ++ [x]).length - N = 0 := by
        simp only [List.length_append, List.length_cons, List.length_nil] at h ⊢
        omega
      rw [hz, List.drop_zero]

theorem lastN_append (N : Nat) (l s : List Interaction) :
    lastN N (lastN N l ++ s) = lastN N (l ++ s) := by
  rcases Nat.le_total l.length N with hle | hge
  · rw [lastN_of_le hle]
  · unfold lastN
    have hk : l.length - N ≤ l.length := Nat.sub_le _ _
    rw [List.length_append, List.length_drop, List.length_append]
    rw [← List.drop_append_of_le_length hk]
    rw [List.drop_drop]
    congr 1
    omega

/-- Folding `add_interaction` over a sequence of (prompt, response) pairs:
the resulting history keeps the capacity and retains exactly the last
`max_history` elements of the old contents followed by the new
interactions. -/
theorem foldl_add_interaction (ps : List (String × LLMResponse)) :
    ∀ (h : LLMInteractionHistory), h.hist.length ≤ h.max_history →
      ps.foldl (fun acc pr => acc.add_interaction pr.1 pr.2) h =
        ⟨h.max_history,
         lastN h.max_history (h.hist ++ ps.map (fun pr => interactionOf pr.1 pr.2))⟩ := by
  induction ps with
  | nil =>
      intro h hinv
      simp [lastN_of_le hinv]
  | cons pr ps ih =>
      intro h hinv
      rw [List.foldl_cons]
      have hstep : h.add_interaction pr.1 pr.2 =
          ⟨h.max_history, lastN h.max_history (h.hist ++ [interactionOf pr.1 pr.2])⟩ := by
        unfold LLMInteractionHistory.add_interaction
        rw [dequeAppendMax_eq]
      rw [hstep, ih _ (lastN_length_le _ _)]
      simp only [List.map_cons]
      rw [lastN_append]
      rw [List.append_assoc]
      rfl

/-- C2: for every capacity N and every sequence of k > N insertions into a
fresh History of capacity N, `size()` returns N and `get()` with no
argument returns exactly the last N inserted interactions in insertion
order. -/
theorem history_ring_buffer (N : Nat) (ps : List (String × LLMResponse))
    (hk : N < ps.length) :
    (ps.foldl (fun acc pr => acc.add_interaction pr.1 pr.2)
        (LLMInteractionHistory.init N)).size = N ∧
    (ps.foldl (fun acc pr => acc.add_interaction pr.1 pr.2)
        (LLMInteractionHistory.init N)).get_history none =
      (ps.map (fun pr => interactionOf pr.1 pr.2)).drop (ps.length - N) := by
  have hfold := foldl_add_interaction ps (LLMInteractionHistory.init N) (by simp [LLMInteractionHistory.init])
  rw [hfold]
  unfold LLMInteractionHistory.size LLMInteractionHistory.get_history lastN
  constructor
  · simp only [LLMInteractionHistory.init, List.nil_append, List.length_drop, List.length_map]
    omega
  · simp [LLMInteractionHistory.init]

/-- Concrete successful response used by witnesses. -/
def rA : LLMResponse :=
  { content := "alpha", model := "m", provider := "p", usage := none, error := none }

/-- Second concrete successful response used by witnesses. -/
def rB : LLMResponse :=
  { content := "beta", model := "m", provider := "p", usage := none, error := none }

/-- Closed witness for the ring-buffer theorem at capacity 1 and two
insertions. -/
theorem history_ring_buffer_witness :
    (1 < ([("a", rA), ("b", rB)] : List (String × LLMResponse)).length) ∧
    (([("a", rA), ("b", rB)].foldl (fun acc pr => acc.add_interaction pr.1 pr.2)
        (LLMInteractionHistory.init 1)).size = 1 ∧
     ([("a", rA), ("b", rB)].foldl (fun acc pr => acc.add_interaction pr.1 pr.2)
        (LLMInteractionHistory.init 1)).get_history none =
       ([("a", rA), ("b", rB)].map (fun pr => interactionOf pr.1 pr.2)).drop (2 - 1)) :=
  ⟨by decide, history_ring_buffer 1 [("a", rA), ("b", rB)] (by decide)⟩

theorem messagesOfInteractions_length (l : List Interaction) :
    (messagesOfInteractions l).length = 2 * l.length := by
  induction l with
  | nil => rfl
  | cons i rest ih =>
      simp only [messagesOfInteractions, List.length_cons, ih]
      omega

theorem messagesOfInteractions_getElem (l : List Interaction) :
    ∀ (j : Nat) (hj : j < l.length),
      (messagesOfInteractions l)[2 * j]? = some { role := "user", content := l[j].prompt } ∧
      (messagesOfInteractions l)[2 * j + 1]? = some { role := "assistant", content := l[j].response } := by
  induction l with
  | nil => intro j hj; simp at hj
  | cons i rest ih =>
      intro j hj
      cases j with
      | zero => constructor <;> simp [messagesOfInteractions]
      | succ j =>
          have h2 : 2 * (j + 1) = 2 * j + 1 + 1 := by omega
          have hj2 : j < rest.length := by
            simp only [List.length_cons] at hj
            omega
          have := ih j hj2
          simp only [messagesOfInteractions, h2, List.getElem?_cons_succ, List.getElem_cons_succ]
          exact this

/-- C5: for every n and history state, `as_messages(n)` returns exactly
two messages per selected interaction, alternating user/assistant starting
with user: the (2j)-th message carries the j-th selected prompt with role
user, the (2j+1)-th carries its response content with role assistant, in
chronological order. -/
theorem as_messages_shape (h : LLMInteractionHistory) (n : Option Nat) :
    (h.get_as_messages n).length = 2 * (h.get_history n).length ∧
    ∀ (j : Nat) (hj : j < (h.get_history n).length),
      (h.get_as_messages n)[2 * j]? =
        some { role := "user", content := (h.get_history n)[j].prompt } ∧
      (h.get_as_messages n)[2 * j + 1]? =
        some { role := "assistant", content := (h.get_history n)[j].response } := by
  unfold LLMInteractionHistory.get_as_messages
  exact ⟨messagesOfInteractions_length _, messagesOfInteractions_getElem _⟩

/-- Concrete two-interaction history used by witnesses. -/
def histW : LLMInteractionHistory :=
  ⟨50, [interactionOf "a" rA, interactionOf "b" rB]⟩

/-- Closed witness for the `as_messages` shape theorem: a concrete history
with two interactions, inspected at index 1. -/
theorem as_messages_shape_witness :
    ((histW.get_as_messages none).length = 2 * (histW.get_history none).length) ∧
    (1 < (histW.get_history none).length ∧
     (histW.get_as_messages none)[2 * 1]? =
       some { role := "user", content := (histW.get_history none)[1].prompt } ∧
     (histW.get_as_messages none)[2 * 1 + 1]? =
       some { role := "assistant", content := (histW.get_history none)[1].response }) :=
  ⟨(as_messages_shape histW none).1,
   by decide,
   ((as_messages_shape histW none).2 1 (by decide)).1,
   ((as_messages_shape histW none).2 1 (by decide)).2⟩

/-- C1: when the facade's `generate` raises, `Client.generate(prompt)`
(with default `use_history=false`, `save_to_history=true`) does not raise:
it returns a response with empty content whose error field carries the
exception message, and the client (in particular its history) is
unchanged. -/
theorem generate_facade_exception (c : LLMClient) (prompt msg : String)
    (hraise : c.facade.generateF prompt = .error msg) :
    (c.generate prompt false true).1.content = "" ∧
    (c.generate prompt false true).1.error = some msg ∧
    (c.generate prompt false true).2 = c := by
  simp [LLMClient.generate, hraise, errorResponse]

/-- Concrete client whose facade raises on every operation. -/
def clientRaise : LLMClient :=
  { facade :=
      { model_name := "m", provider_name := "p"
        generateF := fun _ => .error "boom"
        chatF := fun _ => .error "boom"
        generate_streamF := fun _ => ([], some "boom")
        chat_streamF := fun _ => ([], some "boom") }
    history := LLMInteractionHistory.init 50 }

/-- Closed witness for the facade-exception theorem. -/
theorem generate_facade_exception_witness :
    clientRaise.facade.generateF "hi" = .error "boom" ∧
    ((clientRaise.generate "hi" false true).1.content = "" ∧
     (clientRaise.generate "hi" false true).1.error = some "boom" ∧
     (clientRaise.generate "hi" false true).2 = clientRaise) :=
  ⟨rfl, generate_facade_exception clientRaise "hi" "boom" rfl⟩

/-- C4 (amended): when the facade stream is exhausted without raising,
`generate_stream(prompt, save_to_history=true)` forwards exactly the
facade's fragments and appends exactly one interaction whose recorded
content is the concatenation of those fragments — regardless of any error
marker text the fragments may carry. -/
theorem generate_stream_records (c : LLMClient) (prompt : String) (chunks : List String)
    (hstream : c.facade.generate_streamF prompt = (chunks, none)) :
    (c.generate_stream prompt false true).1 = chunks ∧
    (c.generate_stream prompt false true).2.history =
      c.history.add_interaction prompt
        { content := String.join chunks, model := c.facade.model_name
          provider := c.facade.provider_name, usage := none, error := none } := by
  simp [LLMClient.generate_stream, hstream]

/-- Concrete client whose facade stream raises after one fragment. -/
def clientStreamRaise : LLMClient :=
  { facade :=
      { model_name := "m", provider_name := "p"
        generateF := fun _ => .error "boom"
        chatF := fun _ => .error "boom"
        generate_streamF := fun _ => (["a"], some "boom")
        chat_streamF := fun _ => ([], some "boom") }
    history := LLMInteractionHistory.init 50 }

/-- C4 counterexample: the facade stream raises after yielding one
fragment; the caller consumes the client's fragment sequence to natural
exhaustion and receives an extra terminal error fragment, yet no
interaction is appended to history — the claim's "exactly one interaction
whose content is the concatenation of received fragments" fails here. -/
theorem generate_stream_cex :
    (clientStreamRaise.generate_stream "p" false true).1 = ["a", "Error: boom"] ∧
    (clientStreamRaise.generate_stream "p" false true).2.history.size = 0 ∧
    ¬ (clientStreamRaise.generate_stream "p" false true).2.history.size = 1 := by
  exact ⟨rfl, rfl, by decide⟩

/-- Concrete client whose facade stream succeeds with two fragments. -/
def clientStreamOk : LLMClient :=
  { facade :=
      { model_name := "m", provider_name := "p"
        generateF := fun _ => .ok rA
        chatF := fun _ => .ok rA
        generate_streamF := fun _ => (["he", "llo"], none)
        chat_streamF := fun _ => ([], none) }
    history := LLMInteractionHistory.init 50 }

/-- Closed witness for the amended stream-recording theorem. -/
theorem generate_stream_records_witness :
    clientStreamOk.facade.generate_streamF "q" = (["he", "llo"], none) ∧
    ((clientStreamOk.generate_stream "q" false true).1 = ["he", "llo"] ∧
     (clientStreamOk.generate_stream "q" false true).2.history =
       clientStreamOk.history.add_interaction "q"
         { content := String.join ["he", "llo"], model := clientStreamOk.facade.model_name
           provider := clientStreamOk.facade.provider_name, usage := none, error := none }) :=
  ⟨rfl, generate_stream_records clientStreamOk "q" ["he", "llo"] rfl⟩

/-- Facade whose operations all succeed with the fixed response `rA`. -/
def okFacade : LLMFacade :=
  { model_name := "m", provider_name := "p"
    generateF := fun _ => .ok rA
    chatF := fun _ => .ok rA
    generate_streamF := fun _ => (["ok"], none)
    chat_streamF := fun _ => (["ok"], none) }

/-- Concrete client with a succeeding facade and empty history. -/
def clientChatOk : LLMClient :=
  { facade := okFacade, history := LLMInteractionHistory.init 50 }

/-- C6 (amended): on a successful `chat(messages, save_to_history=true)`,
when the most recent user-role message (scanning from the end) has
non-empty content X, exactly one interaction with stored prompt X is
appended, even when messages of other roles surround it. -/
theorem chat_records_last_user (c : LLMClient) (messages : List ChatMessage)
    (m0 : ChatMessage) (res : LLMResponse)
    (hfind : messages.reverse.find? (fun m => m.role == "user") = some m0)
    (hne : m0.content ≠ "")
    (hok : c.facade.chatF messages = .ok res)
    (herr : res.error = none) :
    (c.chat messages true).1 = res ∧
    (c.chat messages true).2.history = c.history.add_interaction m0.content res := by
  have hnonempty : messages ≠ [] := by
    intro h
    subst h
    simp at hfind
  simp [LLMClient.chat, hok, herr, hfind, hnonempty, hne]

/-- C6 counterexample: the most recent user message carries empty content;
the chat call succeeds but the truthiness guard on the scanned content
skips recording, so no interaction is appended (the claim promises exactly
one with stored prompt equal to that empty content). -/
theorem chat_empty_user_cex :
    (clientChatOk.chat [{ role := "user", content := "" }] true).1.error = none ∧
    (clientChatOk.chat [{ role := "user", content := "" }] true).2.history.size = 0 ∧
    ¬ (clientChatOk.chat [{ role := "user", content := "" }] true).2.history.size = 1 := by
  exact ⟨rfl, rfl, by decide⟩

/-- Closed witness for the amended chat-recording theorem: a system
message precedes the user message with content X. -/
theorem chat_records_last_user_witness :
    (([{ role := "system", content := "s" }, { role := "user", content := "X" }] :
        List ChatMessage).reverse.find? (fun m => m.role == "user") =
      some { role := "user", content := "X" }) ∧
    ((clientChatOk.chat
        [{ role := "system", content := "s" }, { role := "user", content := "X" }] true).1 = rA ∧
     (clientChatOk.chat
        [{ role := "system", content := "s" }, { role := "user", content := "X" }] true).2.history =
       clientChatOk.history.add_interaction "X" rA) :=
  ⟨rfl, chat_records_last_user clientChatOk _ { role := "user", content := "X" } rA rfl
    (by decide) rfl rfl⟩

/-- C10: on a non-empty history, `get(0)` and `as_messages(0)` coincide
with the no-argument forms (the CPython `[-0:]` slice is the whole list),
and consequently `multi_shot_generate(prompt, 0)` issues a chat call whose
message list is the entire rendered history plus the new prompt. -/
theorem get_zero_returns_all (c : LLMClient) (prompt : String)
    (hne : c.history.is_empty = false) :
    c.history.get_history (some 0) = c.history.get_history none ∧
    c.history.get_as_messages (some 0) = c.history.get_as_messages none ∧
    c.multi_shot_generate prompt 0 =
      c.chat (c.history.get_as_messages none ++ [{ role := "user", content := prompt }]) true := by
  exact ⟨rfl, rfl, rfl⟩

/-- Concrete client with a succeeding facade and a two-entry history. -/
def clientMulti : LLMClient :=
  { facade := okFacade, history := histW }

/-- Closed witness for the zero-selects-all theorem. -/
theorem get_zero_returns_all_witness :
    clientMulti.history.is_empty = false ∧
    (clientMulti.history.get_history (some 0) = clientMulti.history.get_history none ∧
     clientMulti.history.get_as_messages (some 0) = clientMulti.history.get_as_messages none ∧
     clientMulti.multi_shot_generate "q" 0 =
       clientMulti.chat
         (clientMulti.history.get_as_messages none ++ [{ role := "user", content := "q" }]) true) :=
  ⟨rfl, get_zero_returns_all clientMulti "q" rfl⟩

/-- Unfolding equation of `get_provider` with `use_cache = true`. -/
theorem get_provider_true_eq (st : LLMProviderFactoryState) (name : String)
    (k : Option String) (cfg : Option ProviderConfig) :
    get_provider st name k cfg true =
      match st.instances.lookup (strToLower name) with
      | some p => (.ok p, st)
      | none =>
        match st.registry.lookup (strToLower name) with
        | none =>
            (.error ("Provider '" ++ name ++ "' not registered. Available providers: "
              ++ String.intercalate ", " (st.registry.map Prod.fst)), st)
        | some cls =>
          match cls.construct name (resolveApiKey k st.env name) cfg with
          | .error e => (.error e, st)
          | .ok p =>
              (.ok p, { st with instances := (strToLower name, p) :: st.instances
                                constructions := st.constructions + 1 }) :=
  rfl

/-- C7: once a `get_provider(name, use_cache=true)` call has returned a
provider, a second call for the same name with `use_cache=true` returns
that identical provider instance and leaves the factory state unchanged,
whatever explicit key or config argument the second call supplies. -/
theorem get_provider_cached (st st2 : LLMProviderFactoryState) (name : String)
    (k k2 : Option String) (cfg cfg2 : Option ProviderConfig) (p : LLMProvider)
    (h1 : get_provider st name k cfg true = (.ok p, st2)) :
    get_provider st2 name k2 cfg2 true = (.ok p, st2) := by
  rw [get_provider_true_eq] at h1
  split at h1
  · next p0 hcache =>
      simp only [Prod.mk.injEq, Except.ok.injEq] at h1
      obtain ⟨hp, hst⟩ := h1
      subst hp
      subst hst
      rw [get_provider_true_eq, hcache]
  · next hcache =>
      split at h1
      · simp at h1
      · next cls hreg =>
          split at h1
          · simp at h1
          · next p1 hcon =>
              simp only [Prod.mk.injEq, Except.ok.injEq] at h1
              obtain ⟨hp, hst⟩ := h1
              subst hp
              rw [← hst]
              rw [get_provider_true_eq]
              simp [List.lookup]

/-- Mock provider catalog keys. -/
def mockModels : List String := ["mock-model", "mock-model-large", "mock-model-fast"]

/-- A concrete facade for a mock model. -/
def mockFacadeFor (model_name : String) : LLMFacade :=
  { model_name := model_name, provider_name := "mock"
    generateF := fun p =>
      .ok { content := "Mock response to: " ++ p, model := model_name
            provider := "mock", usage := none, error := none }
    chatF := fun _ =>
      .ok { content := "Mock chat response", model := model_name
            provider := "mock", usage := none, error := none }
    generate_streamF := fun _ => (["Mock "], none)
    chat_streamF := fun _ => (["Mock "], none) }

/-- The mock provider class: construction always succeeds; `create_facade`
raises on models outside the catalog. -/
def mockProviderClass : LLMProviderClass :=
  { construct := fun pn key _ =>
      .ok { provider_name := pn, api_key := key, models := mockModels
            create_facadeF := fun m =>
              if mockModels.contains m then .ok (mockFacadeFor m)
              else .error ("Model '" ++ m ++ "' not available. Available models: "
                ++ String.intercalate ", " mockModels) } }

/-- Provider-factory state with the mock class registered and an empty
cache. -/
def pfW : LLMProviderFactoryState :=
  { registry := [("mock", mockProviderClass)], instances := [], env := [], constructions := 0 }

/-- The provider instance the mock class yields for the first cached
lookup on `pfW`. -/
def mockProviderW : LLMProvider :=
  { provider_name := "mock", api_key := none, models := mockModels
    create_facadeF := fun m =>
      if mockModels.contains m then .ok (mockFacadeFor m)
      else .error ("Model '" ++ m ++ "' not available. Available models: "
        ++ String.intercalate ", " mockModels) }

/-- `pfW` after the first cached `get_provider` call. -/
def pfW2 : LLMProviderFactoryState :=
  { registry := [("mock", mockProviderClass)], instances := [("mock", mockProviderW)]
    env := [], constructions := 1 }

/-- Closed witness for the provider-cache theorem: the second call passes
a different explicit key and config and still gets the cached instance. -/
theorem get_provider_cached_witness :
    get_provider pfW "mock" none none true = (.ok mockProviderW, pfW2) ∧
    get_provider pfW2 "mock" (some "other-key") (some [("a", "b")]) true = (.ok mockProviderW, pfW2) :=
  ⟨rfl, get_provider_cached pfW pfW2 "mock" none (some "other-key") none (some [("a", "b")])
    mockProviderW rfl⟩

/-- C8: `create_client()` with no explicit provider or model and no
configured defaults fails with the no-provider condition and returns the
factory state untouched — for every registry/cache state, so no provider
is ever constructed (the ghost construction counter is unchanged). -/
theorem create_client_no_default (cfg : Option FallbackConfig)
    (pf : LLMProviderFactoryState) (api_key : Option String) (hs : Nat)
    (pc : Option ProviderConfig) :
    create_client ⟨none, none, cfg, pf⟩ none none api_key hs pc =
      (.error "No provider specified and no default configured", ⟨none, none, cfg, pf⟩) :=
  rfl

/-- Unfolding equation of `create_client_fuel` at positive fuel. -/
theorem create_client_fuel_succ (n : Nat) (st : LLMClientFactoryState)
    (po mo ak : Option String) (hs : Nat) (pc : Option ProviderConfig) :
    create_client_fuel (n + 1) st po mo ak hs pc =
      match resolveName po st.default_provider with
      | none => (.error "No provider specified and no default configured", st)
      | some provider_name =>
        match resolveName mo st.default_model with
        | none => (.error "No model specified and no default configured", st)
        | some model_name =>
          match create_client_attempt st provider_name model_name ak hs pc with
          | (.ok client, st2) => (.ok client, st2)
          | (.error e, st2) =>
            if fallbackEnabled st2 ∧ provider_name ≠ "mock" then
              create_client_fuel n st2 (some "mock") (some "mock-model") none hs none
            else
              (.error e, st2) :=
  rfl

/-- Unfolding equation of `create_client_fuel` at positive fuel with both
names given explicitly (name resolution already done). -/
theorem create_client_fuel_succ_some (n : Nat) (st : LLMClientFactoryState)
    (pn mn : String) (ak : Option String) (hs : Nat) (pc : Option ProviderConfig) :
    create_client_fuel (n + 1) st (some pn) (some mn) ak hs pc =
      match create_client_attempt st pn mn ak hs pc with
      | (.ok client, st2) => (.ok client, st2)
      | (.error e, st2) =>
        if fallbackEnabled st2 ∧ pn ≠ "mock" then
          create_client_fuel n st2 (some "mock") (some "mock-model") none hs none
        else
          (.error e, st2) :=
  rfl

/-- A `create_client` call already targeting the mock provider never
consumes fallback fuel: its result is the same at every positive fuel. -/
theorem create_client_fuel_mock_stable (f1 f2 : Nat) (st : LLMClientFactoryState)
    (mn : String) (ak : Option String) (hs : Nat) (pc : Option ProviderConfig) :
    create_client_fuel (f1 + 1) st (some "mock") (some mn) ak hs pc =
    create_client_fuel (f2 + 1) st (some "mock") (some mn) ak hs pc := by
  rw [create_client_fuel_succ_some f1, create_client_fuel_succ_some f2]
  cases hat : create_client_attempt st "mock" mn ak hs pc with
  | mk r st2 =>
      cases r with
      | ok c => rfl
      | error e =>
          show (if fallbackEnabled st2 ∧ ("mock" : String) ≠ "mock" then
                  create_client_fuel f1 st2 (some "mock") (some "mock-model") none hs none
                else (.error e, st2)) =
               (if fallbackEnabled st2 ∧ ("mock" : String) ≠ "mock" then
                  create_client_fuel f2 st2 (some "mock") (some "mock-model") none hs none
                else (.error e, st2))
          have hcond : ¬ (fallbackEnabled st2 ∧ ("mock" : String) ≠ "mock") :=
            fun h => h.2 rfl
          rw [if_neg hcond, if_neg hcond]

/-- C9: the fallback-to-mock retry happens at most once. First conjunct:
`create_client_fuel` is already stable at fuel 2, i.e. the recursion depth
is bounded by one. Second conjunct: a call whose provider is already
`mock` propagates the failure of its (single) attempt with no further
fallback. -/
theorem create_client_fallback_once :
    (∀ (f : Nat) (st : LLMClientFactoryState) (po mo ak : Option String) (hs : Nat)
        (pc : Option ProviderConfig),
       create_client_fuel (f + 2) st po mo ak hs pc =
       create_client_fuel 2 st po mo ak hs pc) ∧
    (∀ (st : LLMClientFactoryState) (mn : String) (ak : Option String) (hs : Nat)
        (pc : Option ProviderConfig) (e : String) (st2 : LLMClientFactoryState),
       create_client_attempt st "mock" mn ak hs pc = (.error e, st2) →
       ∀ f : Nat,
         create_client_fuel (f + 1) st (some "mock") (some mn) ak hs pc = (.error e, st2)) := by
  constructor
  · intro f st po mo ak hs pc
    show create_client_fuel ((f + 1) + 1) st po mo ak hs pc =
      create_client_fuel (1 + 1) st po mo ak hs pc
    rw [create_client_fuel_succ (f + 1), create_client_fuel_succ 1]
    cases hpo : resolveName po st.default_provider with
    | none => rfl
    | some pn =>
        cases hmo : resolveName mo st.default_model with
        | none => rfl
        | some mn =>
            show (match create_client_attempt st pn mn ak hs pc with
                  | (Except.ok client, st2) => (Except.ok client, st2)
                  | (Except.error e, st2) =>
                    if fallbackEnabled st2 ∧ pn ≠ "mock" then
                      create_client_fuel (f + 1) st2 (some "mock") (some "mock-model") none hs none
                    else (Except.error e, st2)) =
                 (match create_client_attempt st pn mn ak hs pc with
                  | (Except.ok client, st2) => (Except.ok client, st2)
                  | (Except.error e, st2) =>
                    if fallbackEnabled st2 ∧ pn ≠ "mock" then
                      create_client_fuel 1 st2 (some "mock") (some "mock-model") none hs none
                    else (Except.error e, st2))
            cases hat : create_client_attempt st pn mn ak hs pc with
            | mk r st2 =>
                cases r with
                | ok c => rfl
                | error e =>
                    show (if fallbackEnabled st2 ∧ pn ≠ "mock" then
                            create_client_fuel (f + 1) st2 (some "mock") (some "mock-model") none hs none
                          else (.error e, st2)) =
                         (if fallbackEnabled st2 ∧ pn ≠ "mock" then
                            create_client_fuel 1 st2 (some "mock") (some "mock-model") none hs none
                          else (.error e, st2))
                    by_cases hcond : fallbackEnabled st2 ∧ pn ≠ "mock"
                    · rw [if_pos hcond, if_pos hcond]
                      exact create_client_fuel_mock_stable f 0 st2 "mock-model" none hs none
                    · rw [if_neg hcond, if_neg hcond]
  · intro st mn ak hs pc e st2 hat f
    rw [create_client_fuel_succ_some f]
    rw [hat]
    show (if fallbackEnabled st2 ∧ ("mock" : String) ≠ "mock" then
            create_client_fuel f st2 (some "mock") (some "mock-model") none hs none
          else (.error e, st2)) = (.error e, st2)
    exact if_neg (fun h => h.2 rfl)

/-- Provider-factory state with nothing registered. -/
def pfEmpty : LLMProviderFactoryState :=
  { registry := [], instances := [], env := [], constructions := 0 }

/-- Client-factory state with fallback enabled but the mock class itself
unregistered, so even the fallback target fails. -/
def stMockFails : LLMClientFactoryState :=
  { default_provider := none, default_model := none, config := some ⟨true⟩, pf := pfEmpty }

/-- Closed witness for the fallback-once theorem: a call targeting mock
fails (mock unregistered) and its failure propagates unchanged. -/
theorem create_client_fallback_once_witness :
    create_client_attempt stMockFails "mock" "mock-model" none 50 none =
      (.error "Provider 'mock' not registered. Available providers: ", stMockFails) ∧
    create_client_fuel 1 stMockFails (some "mock") (some "mock-model") none 50 none =
      (.error "Provider 'mock' not registered. Available providers: ", stMockFails) :=
  ⟨rfl, create_client_fallback_once.2 stMockFails "mock-model" none 50 none
    "Provider 'mock' not registered. Available providers: " stMockFails rfl 0⟩

/-- C3 (amended): the fallback policy actually implemented. Failures of
name resolution (steps 1 and 2) propagate directly with the factory state
untouched — the fallback check is never reached, because those errors are
raised before the guarded block. A failure of the guarded block (steps
3 to 5) triggers exactly one retry against mock/mock-model when fallback
is enabled in the loaded configuration and the resolved provider name is
not already `mock`; otherwise it propagates. -/
theorem create_client_fallback_policy :
    (∀ (st : LLMClientFactoryState) (mo ak : Option String) (hs : Nat)
        (pc : Option ProviderConfig),
       st.default_provider = none →
       create_client st none mo ak hs pc =
         (.error "No provider specified and no default configured", st)) ∧
    (∀ (st : LLMClientFactoryState) (po mo ak : Option String) (pn : String) (hs : Nat)
        (pc : Option ProviderConfig),
       resolveName po st.default_provider = some pn →
       resolveName mo st.default_model = none →
       create_client st po mo ak hs pc =
         (.error "No model specified and no default configured", st)) ∧
    (∀ (st : LLMClientFactoryState) (po mo ak : Option String) (pn mn : String) (hs : Nat)
        (pc : Option ProviderConfig) (e : String) (st2 : LLMClientFactoryState),
       resolveName po st.default_provider = some pn →
       resolveName mo st.default_model = some mn →
       create_client_attempt st pn mn ak hs pc = (.error e, st2) →
       create_client st po mo ak hs pc =
         (if fallbackEnabled st2 ∧ pn ≠ "mock" then
            create_client_fuel 1 st2 (some "mock") (some "mock-model") none hs none
          else
            (.error e, st2))) := by
  refine ⟨?_, ?_, ?_⟩
  · intro st mo ak hs pc hdp
    unfold create_client
    rw [create_client_fuel_succ 1]
    rw [show resolveName none st.default_provider = st.default_provider from rfl, hdp]
  · intro st po mo ak pn hs pc hpo hmo
    unfold create_client
    rw [create_client_fuel_succ 1, hpo, hmo]
  · intro st po mo ak pn mn hs pc e st2 hpo hmo hat
    unfold create_client
    rw [create_client_fuel_succ 1, hpo, hmo]
    show (match create_client_attempt st pn mn ak hs pc with
          | (Except.ok client, st3) => (Except.ok client, st3)
          | (Except.error e2, st3) =>
            if fallbackEnabled st3 ∧ pn ≠ "mock" then
              create_client_fuel 1 st3 (some "mock") (some "mock-model") none hs none
            else (Except.error e2, st3)) = _
    rw [hat]

/-- Client-factory state with fallback enabled, the mock class registered
and no defaults configured. -/
def stStep1 : LLMClientFactoryState :=
  { default_provider := none, default_model := none, config := some ⟨true⟩, pf := pfW }

/-- C3 counterexample: with fallback enabled and the mock provider fully
able to serve mock-model, a call that fails in step 1 (no provider
argument, no default) propagates the no-provider error instead of being
retried against mock — while the same retry, issued directly, succeeds. -/
theorem create_client_step1_no_fallback_cex :
    create_client stStep1 none (some "mock-model") none 50 none =
      (.error "No provider specified and no default configured", stStep1) ∧
    (create_client stStep1 (some "mock") (some "mock-model") none 50 none).1 =
      .ok { facade := mockFacadeFor "mock-model", history := LLMInteractionHistory.init 50 } :=
  ⟨rfl, rfl⟩

/-- Closed witness for the fallback-policy theorem, exercising the
step 3–5 branch: the requested provider is unregistered, fallback is
enabled, and the call is retried against mock. -/
theorem create_client_fallback_policy_witness :
    resolveName (some "openai") stStep1.default_provider = some "openai" ∧
    resolveName (some "gpt-4") stStep1.default_model = some "gpt-4" ∧
    create_client_attempt stStep1 "openai" "gpt-4" none 50 none =
      (.error "Provider 'openai' not registered. Available providers: mock", stStep1) ∧
    create_client stStep1 (some "openai") (some "gpt-4") none 50 none =
      (if fallbackEnabled stStep1 ∧ "openai" ≠ "mock" then
         create_client_fuel 1 stStep1 (some "mock") (some "mock-model") none 50 none
       else
         (.error "Provider 'openai' not registered. Available providers: mock", stStep1)) :=
  ⟨rfl, rfl, rfl,
   create_client_fallback_policy.2.2 stStep1 (some "openai") (some "gpt-4") none "openai" "gpt-4"
     50 none "Provider 'openai' not registered. Available providers: mock" stStep1 rfl rfl rfl⟩
